import Mathlib

/-!
Shallow embedding of the two command-line adapters of this repository,
scripts/audioldm_operations.py and scripts/wav2vec2_operations.py.

External collaborators (torch, the pretrained model libraries, soundfile,
and the JSON decoder of the Python standard library) are modelled as
oracles carried in an environment record: each oracle field records either
the value the library call returns in the run being modelled, or the
message of the exception it raises there.  The adapter code itself
(control flow, channel downmixing, feature truncation, envelope
construction, printed objects and exit codes) is translated directly from
the Python source.
-/

/-- JSON values, as produced by json.dumps and consumed by json.loads.
Numbers are modelled exactly as rationals. -/
inductive JVal where
  | jstr (s : String)
  | jnum (q : Rat)
  | jbool (b : Bool)
  | jnull
  | jarr (elems : List JVal)
  | jobj (fields : List (String × JVal))

/-- Python dict assignment d[k] = v: overwrite the binding in place when the
key is present, append it otherwise. -/
def setKey : List (String × JVal) → String → JVal → List (String × JVal)
  | [], k, v => [(k, v)]
  | (k', v') :: rest, k, v =>
      if k' = k then (k, v) :: rest else (k', v') :: setKey rest k v

/-- Python dict lookup d.get(k), as an Option. -/
def getKey : List (String × JVal) → String → Option JVal
  | [], _ => none
  | (k', v) :: rest, k => if k' = k then some v else getKey rest k

/-- Python dict lookup with default, d.get(k, dflt). -/
def getKeyD (fields : List (String × JVal)) (k : String) (dflt : JVal) : JVal :=
  match getKey fields k with
  | some v => v
  | none => dflt

/-- The keys of a JSON object, in order. -/
def keysOf (fields : List (String × JVal)) : List String := fields.map Prod.fst

/-- Python truthiness of a JSON value, as used by an if on a value drawn
from the parameter dictionary. -/
def truthy : JVal → Bool
  | .jstr s => s != ""
  | .jnum q => q != 0
  | .jbool b => b
  | .jnull => false
  | .jarr elems => !elems.isEmpty
  | .jobj fields => !fields.isEmpty

/-- The Python comparison v == s between a JSON value and a string literal:
only strings ever compare equal to a string. -/
def jvalIsStr (v : JVal) (s : String) : Bool :=
  match v with
  | .jstr t => t == s
  | _ => false

/-- The string Python passes where a str is expected; non-strings are out of
the happy path and only feed the external file-name oracle. -/
def jstrOrEmpty : JVal → String
  | .jstr s => s
  | _ => ""

/-- A decoded audio array as returned by sf.read: one-dimensional for mono
files, two-dimensional (a list of frames, each frame one sample per
channel) otherwise.  Samples are exact rationals standing for the
floating-point samples. -/
inductive AudioData where
  | mono (samples : List Rat)
  | multi (channels : Nat) (frames : List (List Rat))

/-- len(arr.shape): 1 for a mono array, 2 for a frames-by-channels array. -/
def audioNdim : AudioData → Nat
  | .mono _ => 1
  | .multi _ _ => 2

/-- arr.shape 1 of a two-dimensional array (the channel count); the Python
condition only reads it after checking the dimension. -/
def audioChannels : AudioData → Nat
  | .mono _ => 1
  | .multi c _ => c

/-- len(arr): the number of rows of the array. -/
def audioLen : AudioData → Nat
  | .mono samples => samples.length
  | .multi _ frames => frames.length

/-- The mean of one frame across its c channels. -/
def frameMean (f : List Rat) (c : Nat) : Rat := f.foldl (· + ·) 0 / (c : Rat)

/-- np.mean(arr, axis=1): the per-frame mean across channels. -/
def downmixMono : AudioData → AudioData
  | .mono samples => .mono samples
  | .multi c frames => .mono (frames.map (fun f => frameMean f c))

def isMono : AudioData → Bool
  | .mono _ => true
  | .multi _ _ => false

def encodeSample (q : Rat) : String := toString q.num ++ ":" ++ toString q.den

/-- Stands in for base64(np.save(arr)): an injective textual encoding of the
array that is shipped in the audio_data field. -/
def encodeAudio : AudioData → String
  | .mono samples => "m" ++ String.intercalate "," (samples.map encodeSample)
  | .multi c frames =>
      "c" ++ toString c ++ ";" ++
        String.intercalate ";" (frames.map (fun f => String.intercalate "," (f.map encodeSample)))

/-- Observable outcome of one adapter process: the JSON objects printed to
standard output, in order, and the process exit status. -/
structure ProcResult where
  stdout : List JVal
  exitCode : Nat

namespace ALDM

/-- Oracle environment for one run of scripts/audioldm_operations.py.
jsonLoads is the outcome of json.loads on the params argument; initError,
generateError, testEnvError are the exceptions (if any) raised inside the
respective try blocks by the wrapped libraries; sfReadResult is what
sf.read returns for the requested file. -/
structure Env where
  cudaAvailable : Bool
  pythonVersion : String
  torchVersion : String
  gpuInfo : List (String × JVal)
  testEnvError : Option String
  initError : Option String
  generateError : Option String
  sfReadResult : Except String (AudioData × Int)
  jsonLoads : Except String JVal

/-- The in-process model handle built by load_model, recording the
configuration the source applies to it. -/
structure ModelHandle where
  modelPath : JVal
  device : String
  quantizationConfig : Option String
  halfPrecision : Bool

/-- Embeds load_model (audioldm_operations.py lines 15-49).  A raise inside
the try (the quantization-config imports or the AudioLDM constructor,
oracled by initError) is caught locally: the function prints a bare error
object WITHOUT a request_id and calls sys.exit(1); that SystemExit is not
an Exception, so the top-level except of main does not catch it.  The
error value carries the printed objects and the exit code. -/
def load_model (env : Env) (model_path quantization use_half_precision : JVal) :
    Except (List JVal × Nat) ModelHandle :=
  match env.initError with
  | some e => Except.error ([JVal.jobj [("error", JVal.jstr e)]], 1)
  | none =>
      let quantization_config : Option String :=
        if jvalIsStr quantization "8bit" then some "8bit"
        else if jvalIsStr quantization "4bit" then some "4bit"
        else none
      let device : String := if env.cudaAvailable then "cuda" else "cpu"
      let model : ModelHandle := ⟨model_path, device, quantization_config, false⟩
      let model : ModelHandle :=
        if truthy use_half_precision && jvalIsStr quantization "none" && device == "cuda"
        then ⟨model.modelPath, model.device, model.quantizationConfig, true⟩
        else model
      Except.ok model

/-- Embeds test_environment (lines 117-141).  A raise inside the try while
probing the device (oracled by testEnvError) yields a bare error dict;
otherwise the status dict, with gpu_info empty unless cuda is available. -/
def test_environment (env : Env) : List (String × JVal) :=
  match env.testEnvError with
  | some e => [("error", JVal.jstr e)]
  | none =>
      [("status", JVal.jstr "ok"),
       ("python_version", JVal.jstr env.pythonVersion),
       ("pytorch_version", JVal.jstr env.torchVersion),
       ("cuda_available", JVal.jbool env.cudaAvailable),
       ("gpu_info", JVal.jobj (if env.cudaAvailable then env.gpuInfo else []))]

/-- Embeds generate_audio (lines 51-86).  A raise inside the try (makedirs,
model.generate or sf.write, oracled by generateError) is caught and
returned as a bare error dict; on success the result dict echoes the
sample_rate and duration parameters and the joined output path. -/
def generate_audio (env : Env) (_model : ModelHandle)
    (_prompt output_dir output_name _steps _guidance_scale _batch_size duration sample_rate : JVal) :
    List (String × JVal) :=
  match env.generateError with
  | some e => [("error", JVal.jstr e)]
  | none =>
      [("path", JVal.jstr (jstrOrEmpty output_dir ++ "/" ++ jstrOrEmpty output_name ++ ".wav")),
       ("sample_rate", sample_rate),
       ("duration", duration)]

/-- Embeds read_audio_file (lines 88-115).  sf.read is oracled by
sfReadResult; a raise is caught and returned as a bare error dict.  On
success: downmix to mono when the array is two-dimensional with more than
one channel, duration is row count over sample rate, and the array is
shipped re-encoded in audio_data. -/
def read_audio_file (env : Env) (_file_path : JVal) : List (String × JVal) :=
  match env.sfReadResult with
  | Except.error e => [("error", JVal.jstr e)]
  | Except.ok ar =>
      let audioArr :=
        if audioNdim ar.1 > 1 ∧ audioChannels ar.1 > 1 then downmixMono ar.1 else ar.1
      let duration : Rat := (audioLen audioArr : Rat) / (ar.2 : Rat)
      [("audio_data", JVal.jstr (encodeAudio audioArr)),
       ("sample_rate", JVal.jnum (ar.2 : Rat)),
       ("duration", JVal.jnum duration)]

/-- Outcome of the try block of main: a result dict handed to the result
encoder, a direct process exit (sys.exit escaping as SystemExit, which the
except Exception clause does not catch), or an exception caught by that
clause. -/
inductive TryOut where
  | ok (result : List (String × JVal))
  | exited (printed : List JVal) (code : Nat)
  | raised (msg : String)

/-- The message of the AttributeError raised when params.get is called on a
JSON value that is not an object. -/
def noGetMsg : String := "AttributeError: object has no attribute get"

/-- Embeds the operation dispatch inside the try block of main (lines
153-187), including the params.get defaulting of every field. -/
def dispatch (env : Env) (operation : String) (params : JVal) : TryOut :=
  if operation = "test-env" then
    TryOut.ok (test_environment env)
  else if operation = "load-model" then
    match params with
    | JVal.jobj kvs =>
        match load_model env
            (getKeyD kvs "model_path" (JVal.jstr "latent-diffusion/audioldm-s-full"))
            (getKeyD kvs "quantization" (JVal.jstr "8bit"))
            (getKeyD kvs "use_half_precision" (JVal.jbool true)) with
        | Except.error pe => TryOut.exited pe.1 pe.2
        | Except.ok _ => TryOut.ok [("status", JVal.jstr "Model loaded successfully")]
    | _ => TryOut.raised noGetMsg
  else if operation = "generate" then
    match params with
    | JVal.jobj kvs =>
        match load_model env
            (getKeyD kvs "model_path" (JVal.jstr "latent-diffusion/audioldm-s-full"))
            (getKeyD kvs "quantization" (JVal.jstr "8bit"))
            (getKeyD kvs "use_half_precision" (JVal.jbool true)) with
        | Except.error pe => TryOut.exited pe.1 pe.2
        | Except.ok m =>
            TryOut.ok (generate_audio env m
              (getKeyD kvs "prompt" (JVal.jstr ""))
              (getKeyD kvs "output_dir" (JVal.jstr "./output"))
              (getKeyD kvs "output_name" (JVal.jstr "audio"))
              (getKeyD kvs "steps" (JVal.jnum 25))
              (getKeyD kvs "guidance_scale" (JVal.jnum (35 / 10 : Rat)))
              (getKeyD kvs "batch_size" (JVal.jnum 1))
              (getKeyD kvs "duration" (JVal.jnum 5))
              (getKeyD kvs "sample_rate" (JVal.jnum 16000)))
    | _ => TryOut.raised noGetMsg
  else if operation = "read-audio" then
    match params with
    | JVal.jobj kvs => TryOut.ok (read_audio_file env (getKeyD kvs "file_path" (JVal.jstr "")))
    | _ => TryOut.raised noGetMsg
  else TryOut.ok []

/-- The closed operation set accepted by the argument parser (line 146). -/
def ops : List String := ["test-env", "load-model", "generate", "read-audio"]

/-- Embeds main (lines 143-201).  An operation outside the closed choices
set makes the argument parser print usage to standard error and exit 2
before anything else runs.  json.loads on the params argument runs on line
151, one line BEFORE the try block opens: a decode failure there is an
uncaught exception, so the interpreter prints a traceback to standard
error, prints no JSON to standard output, and exits 1.  Inside the try,
the dispatched result dict gets request_id set and is printed once with
exit 0; a load_model sys.exit passes through; an exception caught by the
except clause prints an error and request_id object and exits 1. -/
def main (env : Env) (operation request_id _paramsArg : String) : ProcResult :=
  if operation ∈ ops then
    match env.jsonLoads with
    | Except.error _ => ⟨[], 1⟩
    | Except.ok params =>
        match dispatch env operation params with
        | TryOut.ok result =>
            ⟨[JVal.jobj (setKey result "request_id" (JVal.jstr request_id))], 0⟩
        | TryOut.exited printed code => ⟨printed, code⟩
        | TryOut.raised msg =>
            ⟨[JVal.jobj [("error", JVal.jstr msg), ("request_id", JVal.jstr request_id)]], 1⟩
  else ⟨[], 2⟩

end ALDM

namespace W2V2

/-- Oracle environment for one run of scripts/wav2vec2_operations.py.
loadError is an exception raised by from_pretrained; sfReadResult is what
sf.read returns for the audio argument; forwardError is an exception
raised by the processor, the forward pass or the decoding; the remaining
fields are the values the wrapped model produces. -/
structure Env where
  cudaAvailable : Bool
  loadError : Option String
  sfReadResult : Except String (AudioData × Int)
  forwardError : Option String
  transcriptionText : String
  confidenceVal : Rat
  hiddenFeatures : List Rat

/-- The model and processor pair returned by load_model. -/
structure ModelPair where
  device : String

/-- Embeds load_model (wav2vec2_operations.py lines 8-16).  There is no
local try here: a raise propagates to the caller. -/
def load_model (env : Env) : Except String ModelPair :=
  match env.loadError with
  | some e => Except.error e
  | none => Except.ok ⟨if env.cudaAvailable then "cuda" else "cpu"⟩

/-- The audio value handed to the processor call of process_audio and
analyze_audio (lines 24 and 47): exactly the array sf.read returned, with
no channel downmix anywhere in this adapter. -/
def processorInput (env : Env) : Except String AudioData :=
  match env.sfReadResult with
  | Except.error e => Except.error e
  | Except.ok ar => Except.ok ar.1

/-- Embeds process_audio (lines 18-39).  No local try: a raise from sf.read
or the model propagates to main.  On success the transcription and the
confidence produced by the wrapped model are returned. -/
def process_audio (env : Env) (_audioPath : String) : Except String (List (String × JVal)) :=
  match env.sfReadResult with
  | Except.error e => Except.error e
  | Except.ok _ =>
      match env.forwardError with
      | some e => Except.error e
      | none =>
          Except.ok [("transcription", JVal.jstr env.transcriptionText),
                     ("confidence", JVal.jnum env.confidenceVal)]

/-- Embeds analyze_audio (lines 41-64).  The pooled hidden-state vector is
oracled by hiddenFeatures; the result returns its first 20 values and its
true total length. -/
def analyze_audio (env : Env) (_audioPath : String) : Except String (List (String × JVal)) :=
  match env.sfReadResult with
  | Except.error e => Except.error e
  | Except.ok _ =>
      match env.forwardError with
      | some e => Except.error e
      | none =>
          Except.ok [("features", JVal.jarr ((env.hiddenFeatures.take 20).map JVal.jnum)),
                     ("feature_count", JVal.jnum (env.hiddenFeatures.length : Rat))]

/-- The closed operation set accepted by the argument parser (line 68). -/
def ops : List String := ["process", "analyze"]

/-- The body of the try block of main: load the model, then run process for
the process operation and analyze for anything else (the parser admits
only the two choices). -/
def tryBody (env : Env) (operation audioPath : String) :
    Except String (List (String × JVal)) :=
  match load_model env with
  | Except.error e => Except.error e
  | Except.ok _ =>
      if operation = "process" then process_audio env audioPath
      else analyze_audio env audioPath

/-- Embeds main (lines 66-96).  An operation outside the choices set makes
the argument parser exit 2 before anything else.  Inside the try, any
raise from load_model, sf.read or the model is caught by the except clause
and printed as an error and request_id object with exit 1; on success the
result dict gets request_id set and is printed once with exit 0. -/
def main (env : Env) (operation audioPath request_id : String) : ProcResult :=
  if operation ∈ ops then
    match tryBody env operation audioPath with
    | Except.error e =>
        ⟨[JVal.jobj [("error", JVal.jstr e), ("request_id", JVal.jstr request_id)]], 1⟩
    | Except.ok result =>
        ⟨[JVal.jobj (setKey result "request_id" (JVal.jstr request_id))], 0⟩
  else ⟨[], 2⟩

end W2V2

/-! ## Concrete environments used by witnesses and counterexamples -/

def envC5 : ALDM.Env :=
  ⟨true, "3.10.0", "2.1.0", [], none, none, none, Except.error "file not found",
   Except.ok (JVal.jobj [])⟩

def envC9 : ALDM.Env :=
  ⟨false, "3.10.0", "2.1.0", [], none, none, none, Except.error "file not found",
   Except.ok (JVal.jobj [])⟩

def envC9w : W2V2.Env :=
  ⟨false, none, Except.error "file not found", none, "", 0, []⟩

def envC7 : W2V2.Env :=
  ⟨false, none, Except.ok (AudioData.mono [1], 16000), none, "ok", 1,
   [0, 1, 2, 3, 4, 5, 6, 7, 8, 9, 10, 11, 12, 13, 14, 15, 16, 17, 18, 19, 20]⟩

def envC4x : W2V2.Env :=
  ⟨false, none, Except.ok (AudioData.multi 2 [[1, 3], [2, 4]], 16000), none, "hi", 1, []⟩

def envC4w : ALDM.Env :=
  ⟨false, "3.10.0", "2.1.0", [], none, none, none,
   Except.ok (AudioData.multi 2 [[1, 3], [2, 4]], 4), Except.ok (JVal.jobj [])⟩

def envC6 : ALDM.Env :=
  ⟨false, "3.10.0", "2.1.0", [], none, none, none,
   Except.ok (AudioData.multi 2 [[1, 3], [2, 4]], 8), Except.ok (JVal.jobj [])⟩

def envC8a : ALDM.Env :=
  ⟨false, "3.10.0", "2.1.0", [], none, none, none, Except.error "file not found",
   Except.ok (JVal.jobj [])⟩

def envC8w : W2V2.Env :=
  ⟨false, none, Except.ok (AudioData.mono [1], 16000), none, "hello", 2, [1, 2]⟩

def envC3x : ALDM.Env :=
  ⟨false, "3.11.0", "2.2.0", [], none, none, none, Except.error "file not found",
   Except.error "Expecting value: line 1 column 1"⟩

def envC1x : ALDM.Env :=
  ⟨false, "3.10.0", "2.1.0", [], none, none, none, Except.error "file not found",
   Except.error "Expecting value: line 1 column 2"⟩

def envC1w : ALDM.Env :=
  ⟨false, "3.10.0", "2.1.0", [], none, none, none, Except.error "file not found",
   Except.error "Expecting value: line 1 column 1"⟩

def envC1wW : W2V2.Env :=
  ⟨false, some "load failed", Except.error "file not found", none, "", 0, []⟩

def envC2x : ALDM.Env :=
  ⟨false, "3.10.0", "2.1.0", [], none, none, some "CUDA out of memory",
   Except.error "file not found", Except.ok (JVal.jobj [])⟩

def envC2w : ALDM.Env :=
  ⟨false, "3.10.0", "2.1.0", [], none, none, some "synthesis failed",
   Except.error "file not found", Except.ok (JVal.jobj [])⟩

def envC2wl : ALDM.Env :=
  ⟨false, "3.10.0", "2.1.0", [], none, some "weights gone", none,
   Except.error "file not found", Except.ok (JVal.jobj [])⟩

def envC2ws : ALDM.Env :=
  ⟨false, "3.10.0", "2.1.0", [], none, none, none,
   Except.error "file not found", Except.ok (JVal.jobj [])⟩

def envC10x : ALDM.Env :=
  ⟨false, "3.10.0", "2.1.0", [], none, some "weights missing", none,
   Except.error "file not found", Except.ok (JVal.jobj [])⟩

def envC10w : ALDM.Env :=
  ⟨false, "3.10.0", "2.1.0", [], none, none, none, Except.error "file not found",
   Except.ok (JVal.jnum 3)⟩

/-! ## Helper lemmas -/

theorem getKey_setKey (kvs : List (String × JVal)) (k : String) (v : JVal) :
    getKey (setKey kvs k v) k = some v := by
  induction kvs with
  | nil => simp [setKey, getKey]
  | cons hd tl ih =>
      by_cases h : hd.1 = k
      · simp [setKey, getKey, h]
      · simp [setKey, getKey, h, ih]

theorem jvalIsStr_iff (v : JVal) (s : String) : jvalIsStr v s = true ↔ v = JVal.jstr s := by
  cases v <;> simp [jvalIsStr]

theorem deviceBeq_cuda (b : Bool) : ((if b then "cuda" else "cpu") == "cuda") = b := by
  cases b <;> decide

theorem load_model_error_eq (env : ALDM.Env) (a b c : JVal) (pe : List JVal × Nat)
    (h : ALDM.load_model env a b c = Except.error pe) :
    ∃ e, env.initError = some e ∧ pe = ([JVal.jobj [("error", JVal.jstr e)]], 1) := by
  cases henv : env.initError with
  | none => simp [ALDM.load_model, henv] at h
  | some e =>
      simp only [ALDM.load_model, henv, Except.error.injEq] at h
      exact ⟨e, rfl, h.symm⟩

theorem dispatch_exited_eq (env : ALDM.Env) (op : String) (params : JVal)
    (printed : List JVal) (code : Nat)
    (h : ALDM.dispatch env op params = ALDM.TryOut.exited printed code) :
    code = 1 ∧ ∃ e, env.initError = some e ∧ printed = [JVal.jobj [("error", JVal.jstr e)]] := by
  unfold ALDM.dispatch at h
  split at h
  · simp at h
  · split at h
    · split at h
      · split at h
        · rename_i pe hload
          obtain ⟨e, he, hpe⟩ := load_model_error_eq env _ _ _ pe hload
          simp only [ALDM.TryOut.exited.injEq] at h
          subst hpe
          exact ⟨h.2.symm, e, he, h.1.symm⟩
        · simp at h
      · simp at h
    · split at h
      · split at h
        · split at h
          · rename_i pe hload
            obtain ⟨e, he, hpe⟩ := load_model_error_eq env _ _ _ pe hload
            simp only [ALDM.TryOut.exited.injEq] at h
            subst hpe
            exact ⟨h.2.symm, e, he, h.1.symm⟩
          · simp at h
        · simp at h
      · split at h
        · split at h
          · simp at h
          · simp at h
        · simp at h

/-! ## Claim C5 -/

/-- Claim C5: for every call of the first-adapter model loader that returns
a handle, half precision is applied exactly when it is requested (truthy),
the quantization setting is the string none, and cuda is available; and a
half-precision handle never carries a quantization configuration. -/
theorem c5_half_precision (env : ALDM.Env) (mp q uhp : JVal) (m : ALDM.ModelHandle)
    (h : ALDM.load_model env mp q uhp = Except.ok m) :
    (m.halfPrecision = true ↔
      (truthy uhp = true ∧ q = JVal.jstr "none" ∧ env.cudaAvailable = true))
    ∧ (m.halfPrecision = true → m.quantizationConfig = none) := by
  cases henv : env.initError with
  | some e => simp [ALDM.load_model, henv] at h
  | none =>
      simp only [ALDM.load_model, henv, Except.ok.injEq] at h
      rw [deviceBeq_cuda] at h
      split at h
      · rename_i hcond
        subst h
        simp only [Bool.and_eq_true] at hcond
        obtain ⟨⟨h1, h2⟩, h3⟩ := hcond
        rw [jvalIsStr_iff] at h2
        constructor
        · simp only [true_iff]
          exact ⟨h1, h2, h3⟩
        · intro _
          subst h2
          simp [jvalIsStr]
      · rename_i hcond
        subst h
        constructor
        · simp only [Bool.false_eq_true, false_iff]
          intro ⟨h1, h2, h3⟩
          apply hcond
          subst h2
          simp [h1, h3, jvalIsStr]
        · intro hfalse
          cases hfalse

theorem c5_half_precision_witness :
    ALDM.load_model envC5 (JVal.jstr "p") (JVal.jstr "none") (JVal.jbool true) =
      Except.ok ⟨JVal.jstr "p", "cuda", none, true⟩
    ∧ (((⟨JVal.jstr "p", "cuda", none, true⟩ : ALDM.ModelHandle).halfPrecision = true ↔
        (truthy (JVal.jbool true) = true ∧ JVal.jstr "none" = JVal.jstr "none"
          ∧ envC5.cudaAvailable = true))
       ∧ ((⟨JVal.jstr "p", "cuda", none, true⟩ : ALDM.ModelHandle).halfPrecision = true →
          (⟨JVal.jstr "p", "cuda", none, true⟩ : ALDM.ModelHandle).quantizationConfig = none)) :=
  ⟨rfl, c5_half_precision envC5 (JVal.jstr "p") (JVal.jstr "none") (JVal.jbool true) _ rfl⟩

/-! ## Claim C9 -/

/-- Claim C9: for either adapter, an operation value outside the closed
enumerated choices set makes the argument parser reject the invocation:
nothing is printed to standard output, the exit status is 2 (non-zero),
and the outcome is a constant independent of every oracle, so no model
load is ever attempted. -/
theorem c9_unknown_operation :
    (∀ (env : ALDM.Env) (op rid ps : String), op ∉ ALDM.ops →
        ALDM.main env op rid ps = ⟨[], 2⟩)
    ∧ (∀ (env : W2V2.Env) (op audioPath rid : String), op ∉ W2V2.ops →
        W2V2.main env op audioPath rid = ⟨[], 2⟩) := by
  constructor
  · intro env op rid ps hop
    simp [ALDM.main, hop]
  · intro env op audioPath rid hop
    simp [W2V2.main, hop]

theorem c9_unknown_operation_witness :
    ("frobnicate" ∉ ALDM.ops ∧ ALDM.main envC9 "frobnicate" "req-9" "p" = ⟨[], 2⟩)
    ∧ ("frobnicate" ∉ W2V2.ops ∧ W2V2.main envC9w "frobnicate" "a.wav" "req-9" = ⟨[], 2⟩) :=
  ⟨⟨by decide, c9_unknown_operation.1 envC9 "frobnicate" "req-9" "p" (by decide)⟩,
   ⟨by decide, c9_unknown_operation.2 envC9w "frobnicate" "a.wav" "req-9" (by decide)⟩⟩

/-! ## Claim C7 -/

/-- Claim C7: whenever the pooled feature vector extracted by the second
adapter has more than 20 entries, the analyze operation returns the first
20 of them as the features list (so that list has length exactly 20)
together with a feature_count equal to the true total length. -/
theorem c7_feature_truncation (env : W2V2.Env) (audioPath : String) (ar : AudioData × Int)
    (h1 : env.sfReadResult = Except.ok ar) (h2 : env.forwardError = none)
    (h3 : 20 < env.hiddenFeatures.length) :
    W2V2.analyze_audio env audioPath =
      Except.ok [("features", JVal.jarr ((env.hiddenFeatures.take 20).map JVal.jnum)),
                 ("feature_count", JVal.jnum (env.hiddenFeatures.length : Rat))]
    ∧ ((env.hiddenFeatures.take 20).map JVal.jnum).length = 20 := by
  constructor
  · simp [W2V2.analyze_audio, h1, h2]
  · simp only [List.length_map, List.length_take]
    omega

theorem c7_feature_truncation_witness :
    (envC7.sfReadResult = Except.ok (AudioData.mono [1], 16000)
     ∧ envC7.forwardError = none ∧ 20 < envC7.hiddenFeatures.length)
    ∧ (W2V2.analyze_audio envC7 "a.wav" =
        Except.ok [("features", JVal.jarr ((envC7.hiddenFeatures.take 20).map JVal.jnum)),
                   ("feature_count", JVal.jnum (envC7.hiddenFeatures.length : Rat))]
       ∧ ((envC7.hiddenFeatures.take 20).map JVal.jnum).length = 20) :=
  ⟨⟨rfl, rfl, by decide⟩,
   c7_feature_truncation envC7 "a.wav" (AudioData.mono [1], 16000) rfl rfl (by decide)⟩

/-! ## Claim C4 -/

/-- Claim C4 counterexample: the second adapter does NOT average
multi-channel audio to mono.  On a 2-channel file, the audio value handed
to the processor (and hence to transcription and feature extraction) is
exactly the 2-channel array sf.read returned, not a mono signal. -/
theorem c4_counterexample :
    W2V2.processorInput envC4x = Except.ok (AudioData.multi 2 [[1, 3], [2, 4]])
    ∧ isMono (AudioData.multi 2 [[1, 3], [2, 4]]) = false :=
  ⟨rfl, rfl⟩

/-- Claim C4 amended: only the first adapter downmixes.  Its read-audio
operation averages an array with more than one channel to mono before any
further processing; the second adapter passes the decoded audio to the
processor unchanged, whatever its channel count. -/
theorem c4_downmix_policy :
    (∀ (env : ALDM.Env) (fp : JVal) (c : Nat) (frames : List (List Rat)) (r : Int),
        env.sfReadResult = Except.ok (AudioData.multi c frames, r) → 1 < c →
        ALDM.read_audio_file env fp =
          [("audio_data", JVal.jstr (encodeAudio (downmixMono (AudioData.multi c frames)))),
           ("sample_rate", JVal.jnum (r : Rat)),
           ("duration", JVal.jnum ((frames.length : Rat) / (r : Rat)))])
    ∧ (∀ (env : W2V2.Env) (a : AudioData) (r : Int),
        env.sfReadResult = Except.ok (a, r) → W2V2.processorInput env = Except.ok a) := by
  constructor
  · intro env fp c frames r h hc
    simp [ALDM.read_audio_file, h, audioNdim, audioChannels, hc, downmixMono, audioLen]
  · intro env a r h
    simp [W2V2.processorInput, h]

theorem c4_downmix_policy_witness :
    (envC4w.sfReadResult = Except.ok (AudioData.multi 2 [[1, 3], [2, 4]], 4) ∧ 1 < 2)
    ∧ ALDM.read_audio_file envC4w (JVal.jstr "s.wav") =
        [("audio_data", JVal.jstr (encodeAudio (downmixMono (AudioData.multi 2 [[1, 3], [2, 4]])))),
         ("sample_rate", JVal.jnum ((4 : Int) : Rat)),
         ("duration", JVal.jnum ((([[1, 3], [2, 4]] : List (List Rat)).length : Rat) / ((4 : Int) : Rat)))]
    ∧ W2V2.processorInput envC4x = Except.ok (AudioData.multi 2 [[1, 3], [2, 4]]) :=
  ⟨⟨rfl, by decide⟩,
   c4_downmix_policy.1 envC4w (JVal.jstr "s.wav") 2 [[1, 3], [2, 4]] 4 rfl (by decide),
   c4_downmix_policy.2 envC4x (AudioData.multi 2 [[1, 3], [2, 4]]) 16000 rfl⟩

/-! ## Claim C6 -/

/-- Claim C6: read-audio on a 2-channel array of N frames at sample rate R
returns the per-frame channel mean as a mono signal, whose sample count is
N, and reports duration N divided by R (numbers are exact rationals here,
so the floating tolerance of the spec is met exactly). -/
theorem c6_read_audio_stereo (env : ALDM.Env) (fp : JVal) (frames : List (List Rat)) (r : Int)
    (h : env.sfReadResult = Except.ok (AudioData.multi 2 frames, r)) (_hr : 0 < r) :
    downmixMono (AudioData.multi 2 frames) =
      AudioData.mono (frames.map (fun f => frameMean f 2))
    ∧ audioLen (downmixMono (AudioData.multi 2 frames)) = frames.length
    ∧ ALDM.read_audio_file env fp =
        [("audio_data", JVal.jstr (encodeAudio (downmixMono (AudioData.multi 2 frames)))),
         ("sample_rate", JVal.jnum (r : Rat)),
         ("duration", JVal.jnum ((frames.length : Rat) / (r : Rat)))] := by
  refine ⟨rfl, ?_, ?_⟩
  · simp [downmixMono, audioLen]
  · simp [ALDM.read_audio_file, h, audioNdim, audioChannels, downmixMono, audioLen]

theorem c6_read_audio_stereo_witness :
    (envC6.sfReadResult = Except.ok (AudioData.multi 2 [[1, 3], [2, 4]], 8) ∧ (0 : Int) < 8)
    ∧ (downmixMono (AudioData.multi 2 [[1, 3], [2, 4]]) =
        AudioData.mono (([[1, 3], [2, 4]] : List (List Rat)).map (fun f => frameMean f 2))
       ∧ audioLen (downmixMono (AudioData.multi 2 [[1, 3], [2, 4]])) =
          ([[1, 3], [2, 4]] : List (List Rat)).length
       ∧ ALDM.read_audio_file envC6 (JVal.jstr "fixture.wav") =
          [("audio_data", JVal.jstr (encodeAudio (downmixMono (AudioData.multi 2 [[1, 3], [2, 4]])))),
           ("sample_rate", JVal.jnum ((8 : Int) : Rat)),
           ("duration",
            JVal.jnum ((([[1, 3], [2, 4]] : List (List Rat)).length : Rat) / ((8 : Int) : Rat)))]) :=
  ⟨⟨rfl, by decide⟩,
   c6_read_audio_stereo envC6 (JVal.jstr "fixture.wav") [[1, 3], [2, 4]] 8 rfl (by decide)⟩

theorem getKey_setKey_ne (kvs : List (String × JVal)) (k k' : String) (v : JVal)
    (hne : k' ≠ k) : getKey (setKey kvs k v) k' = getKey kvs k' := by
  induction kvs with
  | nil =>
      have hkk : ¬ k = k' := fun hh => hne hh.symm
      simp [setKey, getKey, hkk]
  | cons hd tl ih =>
      by_cases h : hd.1 = k
      · simp [setKey, getKey, h, hne, Ne.symm hne]
      · simp [setKey, getKey, h, ih]

theorem dispatch_ok_noerr (env : ALDM.Env) (op : String) (params : JVal)
    (result : List (String × JVal)) (h : ALDM.dispatch env op params = ALDM.TryOut.ok result) :
    (∃ e, result = [("error", JVal.jstr e)]) ∨ getKey result "error" = none := by
  unfold ALDM.dispatch at h
  split at h
  · injection h with h
    subst h
    cases hte : env.testEnvError with
    | some e => exact Or.inl ⟨e, by unfold ALDM.test_environment; rw [hte]⟩
    | none => exact Or.inr (by unfold ALDM.test_environment; rw [hte]; rfl)
  · split at h
    · split at h
      · split at h
        · cases h
        · injection h with h
          subst h
          exact Or.inr rfl
      · cases h
    · split at h
      · split at h
        · split at h
          · cases h
          · injection h with h
            subst h
            cases hg : env.generateError with
            | some e => exact Or.inl ⟨e, by unfold ALDM.generate_audio; rw [hg]⟩
            | none => exact Or.inr (by unfold ALDM.generate_audio; rw [hg]; rfl)
        · cases h
      · split at h
        · split at h
          · injection h with h
            subst h
            cases hs : env.sfReadResult with
            | error e => exact Or.inl ⟨e, by unfold ALDM.read_audio_file; rw [hs]⟩
            | ok ar => exact Or.inr (by unfold ALDM.read_audio_file; rw [hs]; rfl)
          · cases h
        · injection h with h
          subst h
          exact Or.inr rfl

theorem process_audio_ok_noerr (env : W2V2.Env) (audioPath : String)
    (result : List (String × JVal)) (h : W2V2.process_audio env audioPath = Except.ok result) :
    getKey result "error" = none := by
  unfold W2V2.process_audio at h
  cases hs : env.sfReadResult with
  | error e => rw [hs] at h; cases h
  | ok ar =>
      rw [hs] at h
      dsimp only at h
      cases hf : env.forwardError with
      | some e => rw [hf] at h; cases h
      | none =>
          rw [hf] at h
          injection h with h
          subst h
          rfl

theorem analyze_audio_ok_noerr (env : W2V2.Env) (audioPath : String)
    (result : List (String × JVal)) (h : W2V2.analyze_audio env audioPath = Except.ok result) :
    getKey result "error" = none := by
  unfold W2V2.analyze_audio at h
  cases hs : env.sfReadResult with
  | error e => rw [hs] at h; cases h
  | ok ar =>
      rw [hs] at h
      dsimp only at h
      cases hf : env.forwardError with
      | some e => rw [hf] at h; cases h
      | none =>
          rw [hf] at h
          injection h with h
          subst h
          rfl

theorem tryBody_ok_noerr (env : W2V2.Env) (op audioPath : String)
    (result : List (String × JVal)) (h : W2V2.tryBody env op audioPath = Except.ok result) :
    getKey result "error" = none := by
  unfold W2V2.tryBody at h
  cases hl : W2V2.load_model env with
  | error e => rw [hl] at h; cases h
  | ok m =>
      rw [hl] at h
      dsimp only at h
      split at h
      · exact process_audio_ok_noerr env audioPath result h
      · exact analyze_audio_ok_noerr env audioPath result h

/-! ## Claim C8 -/

/-- Claim C8: for either adapter, any run with a recognized operation that
exits with status 0 prints exactly one JSON object on standard output, and
that object carries a request_id field equal to the request-id argument of
the invocation. -/
theorem c8_success_envelope :
    (∀ (env : ALDM.Env) (op rid ps : String), op ∈ ALDM.ops →
        (ALDM.main env op rid ps).exitCode = 0 →
        ∃ kvs, (ALDM.main env op rid ps).stdout = [JVal.jobj kvs]
          ∧ getKey kvs "request_id" = some (JVal.jstr rid))
    ∧ (∀ (env : W2V2.Env) (op audioPath rid : String), op ∈ W2V2.ops →
        (W2V2.main env op audioPath rid).exitCode = 0 →
        ∃ kvs, (W2V2.main env op audioPath rid).stdout = [JVal.jobj kvs]
          ∧ getKey kvs "request_id" = some (JVal.jstr rid)) := by
  constructor
  · intro env op rid ps hop hex
    unfold ALDM.main at hex ⊢
    rw [if_pos hop] at hex ⊢
    cases hj : env.jsonLoads with
    | error e => rw [hj] at hex; cases hex
    | ok params =>
        rw [hj] at hex
        dsimp only at hex ⊢
        cases hd : ALDM.dispatch env op params with
        | ok result =>
            dsimp only
            exact ⟨setKey result "request_id" (JVal.jstr rid), rfl, getKey_setKey result _ _⟩
        | exited printed code =>
            rw [hd] at hex
            dsimp only at hex
            obtain ⟨hcode, _⟩ := dispatch_exited_eq env op params printed code hd
            omega
        | raised msg =>
            rw [hd] at hex
            dsimp only at hex
            cases hex
  · intro env op audioPath rid hop hex
    unfold W2V2.main at hex ⊢
    rw [if_pos hop] at hex ⊢
    cases ht : W2V2.tryBody env op audioPath with
    | error e => rw [ht] at hex; cases hex
    | ok result =>
        dsimp only
        exact ⟨setKey result "request_id" (JVal.jstr rid), rfl, getKey_setKey result _ _⟩

theorem c8_success_envelope_witness :
    ("test-env" ∈ ALDM.ops ∧ (ALDM.main envC8a "test-env" "req-8" "p").exitCode = 0
      ∧ ∃ kvs, (ALDM.main envC8a "test-env" "req-8" "p").stdout = [JVal.jobj kvs]
          ∧ getKey kvs "request_id" = some (JVal.jstr "req-8"))
    ∧ ("process" ∈ W2V2.ops ∧ (W2V2.main envC8w "process" "a.wav" "req-8w").exitCode = 0
      ∧ ∃ kvs, (W2V2.main envC8w "process" "a.wav" "req-8w").stdout = [JVal.jobj kvs]
          ∧ getKey kvs "request_id" = some (JVal.jstr "req-8w")) :=
  ⟨⟨by decide, rfl, c8_success_envelope.1 envC8a "test-env" "req-8" "p" (by decide) rfl⟩,
   ⟨by decide, rfl, c8_success_envelope.2 envC8w "process" "a.wav" "req-8w" (by decide) rfl⟩⟩

/-! ## Claim C3 -/

/-- Claim C3 (code defect): json.loads on the params argument runs on line
151, one line before the try block of main opens on line 153, so invalid
params JSON raises an uncaught decode error.  Evaluated at the failing
input, the modelled run prints NO JSON object to standard output, where the
claim requires an error envelope with a non-empty error string, and the
interpreter exits with status 1. -/
theorem c3_parse_outside_try :
    ALDM.main envC3x "test-env" "req-3" "not json" = ⟨[], 1⟩
    ∧ (ALDM.main envC3x "test-env" "req-3" "not json").stdout.length = 0 :=
  ⟨rfl, rfl⟩

/-! ## Claim C1 -/

/-- Claim C1 counterexample: a first-adapter run with a recognized operation
but malformed params JSON prints NO JSON object at all, refuting that
exactly one JSON object is printed per invocation and that every failure
emits an error payload carrying the request_id. -/
theorem c1_counterexample :
    (ALDM.main envC1x "generate" "req-1" "oops").stdout.length = 0
    ∧ (ALDM.main envC1x "generate" "req-1" "oops").exitCode = 1 :=
  ⟨rfl, rfl⟩

/-- Claim C1 amended: the first adapter prints no JSON and exits 1 on a
params decode failure; with a recognized operation and well-formed params
it prints exactly one JSON object; a model-load failure prints a bare
error object WITHOUT the request_id and exits 1; an exception caught by
the top-level handler prints an error object WITH the request_id and exits
1.  The second adapter always prints exactly one JSON object for a
recognized operation, and any of its non-zero-exit runs prints an error
object carrying the request_id and exits 1. -/
theorem c1_emission_contract :
    (∀ (env : ALDM.Env) (op rid ps e : String), op ∈ ALDM.ops →
        env.jsonLoads = Except.error e → ALDM.main env op rid ps = ⟨[], 1⟩)
    ∧ (∀ (env : ALDM.Env) (op rid ps : String) (params : JVal), op ∈ ALDM.ops →
        env.jsonLoads = Except.ok params → (ALDM.main env op rid ps).stdout.length = 1)
    ∧ (∀ (env : ALDM.Env) (op rid ps e : String) (kvs : List (String × JVal)),
        (op = "load-model" ∨ op = "generate") →
        env.jsonLoads = Except.ok (JVal.jobj kvs) → env.initError = some e →
        ALDM.main env op rid ps = ⟨[JVal.jobj [("error", JVal.jstr e)]], 1⟩)
    ∧ (∀ (env : ALDM.Env) (op rid ps msg : String) (params : JVal), op ∈ ALDM.ops →
        env.jsonLoads = Except.ok params →
        ALDM.dispatch env op params = ALDM.TryOut.raised msg →
        ALDM.main env op rid ps =
          ⟨[JVal.jobj [("error", JVal.jstr msg), ("request_id", JVal.jstr rid)]], 1⟩)
    ∧ (∀ (env : W2V2.Env) (op audioPath rid : String), op ∈ W2V2.ops →
        (W2V2.main env op audioPath rid).stdout.length = 1
        ∧ ((W2V2.main env op audioPath rid).exitCode ≠ 0 →
            ∃ m, W2V2.main env op audioPath rid =
              ⟨[JVal.jobj [("error", JVal.jstr m), ("request_id", JVal.jstr rid)]], 1⟩)) := by
  refine ⟨?_, ?_, ?_, ?_, ?_⟩
  · intro env op rid ps e hop hj
    unfold ALDM.main
    rw [if_pos hop, hj]
  · intro env op rid ps params hop hj
    unfold ALDM.main
    rw [if_pos hop, hj]
    dsimp only
    cases hd : ALDM.dispatch env op params with
    | ok result => rfl
    | exited printed code =>
        obtain ⟨_, e, _, hpr⟩ := dispatch_exited_eq env op params printed code hd
        dsimp only
        rw [hpr]
        rfl
    | raised msg => rfl
  · intro env op rid ps e kvs hop hj hi
    rcases env with ⟨cuda, pv, tv, gi, te, ie, ge, sf, jl⟩
    dsimp only at hj hi
    subst hj
    subst hi
    rcases hop with rfl | rfl
    · rfl
    · rfl
  · intro env op rid ps msg params hop hj hd
    unfold ALDM.main
    rw [if_pos hop, hj]
    dsimp only
    rw [hd]
  · intro env op audioPath rid hop
    unfold W2V2.main
    rw [if_pos hop]
    cases ht : W2V2.tryBody env op audioPath with
    | error e =>
        exact ⟨rfl, fun _ => ⟨e, rfl⟩⟩
    | ok result =>
        exact ⟨rfl, fun hne => absurd rfl hne⟩

theorem c1_emission_contract_witness :
    ("test-env" ∈ ALDM.ops
      ∧ envC1w.jsonLoads = Except.error "Expecting value: line 1 column 1"
      ∧ ALDM.main envC1w "test-env" "req-1w" "bad" = ⟨[], 1⟩)
    ∧ ("analyze" ∈ W2V2.ops
      ∧ (W2V2.main envC1wW "analyze" "a.wav" "req-1w").stdout.length = 1) :=
  ⟨⟨by decide, rfl,
    c1_emission_contract.1 envC1w "test-env" "req-1w" "bad" "Expecting value: line 1 column 1"
      (by decide) rfl⟩,
   ⟨by decide,
    (c1_emission_contract.2.2.2.2 envC1wW "analyze" "a.wav" "req-1w" (by decide)).1⟩⟩

/-! ## Claim C2 -/

/-- Claim C2 counterexample: a generation failure is caught inside
generate_audio and returned as an error dict, which main then prints as an
ordinary result: the process exits with status 0, not 1, even though an
execution error was caught and reported. -/
theorem c2_counterexample :
    ALDM.main envC2x "generate" "req-2" "p" =
      ⟨[JVal.jobj [("error", JVal.jstr "CUDA out of memory"),
                   ("request_id", JVal.jstr "req-2")]], 0⟩
    ∧ (ALDM.main envC2x "generate" "req-2" "p").exitCode = 0 :=
  ⟨rfl, rfl⟩

/-- Claim C2 amended: the first adapter exits 0 on every successful run of
test-env, load-model, generate and read-audio, AND whenever a failure
during generation, audio reading or environment probing is caught inside
its handler (the error is then reported inside the envelope with the
request_id); exit 1 is produced by a model-load failure, under both the
load-model and the generate operations, and by a params decode failure. -/
theorem c2_exit_codes :
    (∀ (env : ALDM.Env) (rid ps : String) (params : JVal),
        env.jsonLoads = Except.ok params →
        (ALDM.main env "test-env" rid ps).exitCode = 0)
    ∧ (∀ (env : ALDM.Env) (rid ps e : String) (kvs : List (String × JVal)),
        env.jsonLoads = Except.ok (JVal.jobj kvs) → env.initError = none →
        env.generateError = some e →
        ALDM.main env "generate" rid ps =
          ⟨[JVal.jobj [("error", JVal.jstr e), ("request_id", JVal.jstr rid)]], 0⟩)
    ∧ (∀ (env : ALDM.Env) (rid ps e : String) (kvs : List (String × JVal)),
        env.jsonLoads = Except.ok (JVal.jobj kvs) → env.sfReadResult = Except.error e →
        ALDM.main env "read-audio" rid ps =
          ⟨[JVal.jobj [("error", JVal.jstr e), ("request_id", JVal.jstr rid)]], 0⟩)
    ∧ (∀ (env : ALDM.Env) (op rid ps e : String) (kvs : List (String × JVal)),
        (op = "load-model" ∨ op = "generate") →
        env.jsonLoads = Except.ok (JVal.jobj kvs) → env.initError = some e →
        (ALDM.main env op rid ps).exitCode = 1)
    ∧ (∀ (env : ALDM.Env) (op rid ps e : String), op ∈ ALDM.ops →
        env.jsonLoads = Except.error e → (ALDM.main env op rid ps).exitCode = 1)
    ∧ (∀ (env : ALDM.Env) (rid ps : String) (kvs : List (String × JVal)),
        env.jsonLoads = Except.ok (JVal.jobj kvs) → env.initError = none →
        (ALDM.main env "load-model" rid ps).exitCode = 0)
    ∧ (∀ (env : ALDM.Env) (rid ps : String) (kvs : List (String × JVal)),
        env.jsonLoads = Except.ok (JVal.jobj kvs) → env.initError = none →
        env.generateError = none →
        (ALDM.main env "generate" rid ps).exitCode = 0)
    ∧ (∀ (env : ALDM.Env) (rid ps : String) (kvs : List (String × JVal))
        (ar : AudioData × Int),
        env.jsonLoads = Except.ok (JVal.jobj kvs) → env.sfReadResult = Except.ok ar →
        (ALDM.main env "read-audio" rid ps).exitCode = 0) := by
  refine ⟨?_, ?_, ?_, ?_, ?_, ?_, ?_, ?_⟩
  · intro env rid ps params hj
    rcases env with ⟨cuda, pv, tv, gi, te, ie, ge, sf, jl⟩
    dsimp only at hj
    subst hj
    rfl
  · intro env rid ps e kvs hj hi hg
    rcases env with ⟨cuda, pv, tv, gi, te, ie, ge, sf, jl⟩
    dsimp only at hj hi hg
    subst hj
    subst hi
    subst hg
    rfl
  · intro env rid ps e kvs hj hs
    rcases env with ⟨cuda, pv, tv, gi, te, ie, ge, sf, jl⟩
    dsimp only at hj hs
    subst hj
    subst hs
    rfl
  · intro env op rid ps e kvs hop hj hi
    rcases env with ⟨cuda, pv, tv, gi, te, ie, ge, sf, jl⟩
    dsimp only at hj hi
    subst hj
    subst hi
    rcases hop with rfl | rfl
    · rfl
    · rfl
  · intro env op rid ps e hop hj
    unfold ALDM.main
    rw [if_pos hop, hj]
  · intro env rid ps kvs hj hi
    rcases env with ⟨cuda, pv, tv, gi, te, ie, ge, sf, jl⟩
    dsimp only at hj hi
    subst hj
    subst hi
    rfl
  · intro env rid ps kvs hj hi hg
    rcases env with ⟨cuda, pv, tv, gi, te, ie, ge, sf, jl⟩
    dsimp only at hj hi hg
    subst hj
    subst hi
    subst hg
    rfl
  · intro env rid ps kvs ar hj hs
    rcases env with ⟨cuda, pv, tv, gi, te, ie, ge, sf, jl⟩
    dsimp only at hj hs
    subst hj
    subst hs
    rfl

theorem c2_exit_codes_witness :
    ((envC2w.jsonLoads = Except.ok (JVal.jobj []) ∧ envC2w.initError = none
       ∧ envC2w.generateError = some "synthesis failed")
     ∧ ALDM.main envC2w "generate" "req-2w" "p" =
         ⟨[JVal.jobj [("error", JVal.jstr "synthesis failed"),
                      ("request_id", JVal.jstr "req-2w")]], 0⟩)
    ∧ ((envC2wl.jsonLoads = Except.ok (JVal.jobj []) ∧ envC2wl.initError = some "weights gone")
     ∧ (ALDM.main envC2wl "load-model" "req-2l" "p").exitCode = 1)
    ∧ ((envC2ws.jsonLoads = Except.ok (JVal.jobj []) ∧ envC2ws.initError = none)
     ∧ (ALDM.main envC2ws "load-model" "req-2s" "p").exitCode = 0) :=
  ⟨⟨⟨rfl, rfl, rfl⟩, c2_exit_codes.2.1 envC2w "req-2w" "p" "synthesis failed" [] rfl rfl rfl⟩,
   ⟨⟨rfl, rfl⟩,
    c2_exit_codes.2.2.2.1 envC2wl "load-model" "req-2l" "p" "weights gone" []
      (Or.inl rfl) rfl rfl⟩,
   ⟨⟨rfl, rfl⟩, c2_exit_codes.2.2.2.2.2.1 envC2ws "req-2s" "p" [] rfl rfl⟩⟩

/-! ## Claim C10 -/

/-- Claim C10 counterexample: on a model-load failure the first adapter
prints an object whose only key is error, with no request_id key at all,
refuting that a failing handler always emits exactly the keys error and
request_id. -/
theorem c10_counterexample :
    (ALDM.main envC10x "load-model" "req-10" "p").stdout =
      [JVal.jobj [("error", JVal.jstr "weights missing")]]
    ∧ getKey [("error", JVal.jstr "weights missing")] "request_id" = none :=
  ⟨rfl, rfl⟩

/-- Claim C10 amended: any emitted object that contains an error key
contains nothing but error and request_id.  For the first adapter its key
list is exactly error then request_id, except on a model-load failure
where it is exactly error alone; for the second adapter it is always
exactly error then request_id.  Success payloads never carry an error
key. -/
theorem c10_error_envelope_keys :
    (∀ (env : ALDM.Env) (op rid ps : String) (kvs : List (String × JVal)),
        (ALDM.main env op rid ps).stdout = [JVal.jobj kvs] →
        getKey kvs "error" ≠ none →
        keysOf kvs = ["error", "request_id"] ∨ keysOf kvs = ["error"])
    ∧ (∀ (env : W2V2.Env) (op audioPath rid : String) (kvs : List (String × JVal)),
        (W2V2.main env op audioPath rid).stdout = [JVal.jobj kvs] →
        getKey kvs "error" ≠ none →
        keysOf kvs = ["error", "request_id"]) := by
  constructor
  · intro env op rid ps kvs h he
    by_cases hop : op ∈ ALDM.ops
    · unfold ALDM.main at h
      rw [if_pos hop] at h
      cases hj : env.jsonLoads with
      | error e => rw [hj] at h; simp at h
      | ok params =>
          rw [hj] at h
          dsimp only at h
          cases hd : ALDM.dispatch env op params with
          | ok result =>
              rw [hd] at h
              dsimp only at h
              injection h with h1 h2
              injection h1 with h1
              subst h1
              rcases dispatch_ok_noerr env op params result hd with ⟨e, rfl⟩ | hne
              · left
                rfl
              · exfalso
                apply he
                rw [getKey_setKey_ne result "request_id" "error" (JVal.jstr rid) (by decide)]
                exact hne
          | exited printed code =>
              rw [hd] at h
              dsimp only at h
              obtain ⟨_, e, _, hpr⟩ := dispatch_exited_eq env op params printed code hd
              subst hpr
              injection h with h1 h2
              injection h1 with h1
              subst h1
              right
              rfl
          | raised msg =>
              rw [hd] at h
              dsimp only at h
              injection h with h1 h2
              injection h1 with h1
              subst h1
              left
              rfl
    · unfold ALDM.main at h
      rw [if_neg hop] at h
      simp at h
  · intro env op audioPath rid kvs h he
    by_cases hop : op ∈ W2V2.ops
    · unfold W2V2.main at h
      rw [if_pos hop] at h
      cases ht : W2V2.tryBody env op audioPath with
      | error e =>
          rw [ht] at h
          dsimp only at h
          injection h with h1 h2
          injection h1 with h1
          subst h1
          rfl
      | ok result =>
          rw [ht] at h
          dsimp only at h
          injection h with h1 h2
          injection h1 with h1
          subst h1
          exfalso
          apply he
          rw [getKey_setKey_ne result "request_id" "error" (JVal.jstr rid) (by decide)]
          exact tryBody_ok_noerr env op audioPath result ht
    · unfold W2V2.main at h
      rw [if_neg hop] at h
      simp at h

theorem c10_error_envelope_keys_witness :
    ((ALDM.main envC10w "read-audio" "req-10w" "3").stdout =
        [JVal.jobj [("error", JVal.jstr ALDM.noGetMsg), ("request_id", JVal.jstr "req-10w")]]
     ∧ getKey [("error", JVal.jstr ALDM.noGetMsg), ("request_id", JVal.jstr "req-10w")] "error"
        ≠ none)
    ∧ (keysOf [("error", JVal.jstr ALDM.noGetMsg), ("request_id", JVal.jstr "req-10w")] =
        ["error", "request_id"]
       ∨ keysOf [("error", JVal.jstr ALDM.noGetMsg), ("request_id", JVal.jstr "req-10w")] =
        ["error"]) :=
  ⟨⟨rfl, by simp [getKey]⟩,
   c10_error_envelope_keys.1 envC10w "read-audio" "req-10w" "3"
     [("error", JVal.jstr ALDM.noGetMsg), ("request_id", JVal.jstr "req-10w")] rfl
     (by simp [getKey])⟩
